import Mathlib

/-!
Verification of the DeweyDiscSystem CQRS core: the Command API
(`App/backend/main.py`), the event envelope, and the Synchronizer worker
(`App/backend/worker.py`) that applies events to the MongoDB read model.

The embedding translates the Python source directly:
* a MongoDB `bags` collection is a `List BagDoc`; `update_one` touches the
  first document matching the filter `{"user_id": uid}` (at most one exists
  in well-formed states, so first-match agrees with Mongo's any-match);
* the three `update_one` call sites of `worker.py` become `upsertEmptyBag`
  (`$setOnInsert` + upsert), `pushDisc` (`$push`/`$set` + upsert) and
  `pullDisc` (`$pull`/`$set`, no upsert);
* dictionary access (`payload['user_id']`, `event['timestamp']`) is `Option`
  access; a missing key raises, caught by the worker's per-message
  `except` which logs an error and moves on;
* a store-write failure (an exception out of `update_one`) is injected via
  the `storeOk` flag of `processMessageF` / `runWorker`;
* Python floats on disc flight numbers are carried verbatim and never
  computed with, so they are embedded as `Int` (every catalog value is
  integral).
-/

namespace Dewey

/-- Disc snapshot as serialized by `Disc.dict()` in `main.py` (the pydantic
`Disc` model: id, name, manufacturer, type, speed, glide, turn, fade,
stability). The numeric flight fields are opaque payload here. -/
structure DiscData where
  id : String
  name : String
  manufacturer : String
  discType : String
  speed : Int
  glide : Int
  turn : Int
  fade : Int
  stability : String
deriving Repr, DecidableEq

/-- A document of the MongoDB `bags` collection, as created by either
creation path of `worker.py` (the `$setOnInsert` insert of `UserRegistered`,
or the upsert insert of `DiscAddedToBag`): fields `user_id`, `discs`,
`updated_at` (the Mongo-internal `_id` is left out, both paths get one). -/
structure BagDoc where
  user_id : String
  discs : List DiscData
  updated_at : String
deriving Repr, DecidableEq

/-- The event payload, a JSON object with optional keys: the union of the
fields the three producers in `main.py` put into `payload`. `none` means
the key is absent; `payload['k']` on an absent key raises KeyError. -/
structure Payload where
  user_id : Option String := none
  username : Option String := none
  email : Option String := none
  password_hash : Option String := none
  disc_data : Option DiscData := none
  disc_id : Option String := none
deriving Repr, DecidableEq

/-- The event envelope on the wire. `event.get("event_type")` and
`event.get("payload")` return `None` when absent (hence `Option`);
`event['timestamp']` raises when absent. -/
structure Envelope where
  event_type : Option String := none
  payload : Option Payload := none
  timestamp : Option String := none
deriving Repr, DecidableEq

/-! ### MongoDB update_one semantics for the three worker call sites -/

/-- Mongo call `bags.update_one({"user_id": uid}, {"$setOnInsert": {"user_id": uid,
"discs": [], "updated_at": ts}}, upsert=True)` — worker.py lines 54-58.
A matching document is left untouched (`$setOnInsert` applies only on
insert); with no match the document is inserted. -/
def upsertEmptyBag (coll : List BagDoc) (uid ts : String) : List BagDoc :=
  if coll.any (fun d => d.user_id == uid) then coll
  else coll ++ [{ user_id := uid, discs := [], updated_at := ts }]

/-- Mongo call `bags.update_one({"user_id": uid}, {"$push": {"discs": d},
"$set": {"updated_at": ts}}, upsert=True)` — worker.py lines 66-70.
The first matching document gets `d` appended to its `discs` array and its
`updated_at` set; with no match the document `{user_id, discs: [d],
updated_at}` is inserted. -/
def pushDisc : List BagDoc → String → DiscData → String → List BagDoc
  | [], uid, d, ts => [{ user_id := uid, discs := [d], updated_at := ts }]
  | doc :: rest, uid, d, ts =>
    if doc.user_id == uid then
      { doc with discs := doc.discs ++ [d], updated_at := ts } :: rest
    else doc :: pushDisc rest uid d ts

/-- Mongo call `bags.update_one({"user_id": uid}, {"$pull": {"discs": {"id": did}},
"$set": {"updated_at": ts}})` — worker.py lines 78-81, no upsert.
`$pull` removes every array entry whose `id` equals `did`; with no matching
document this is a no-op. -/
def pullDisc : List BagDoc → String → String → String → List BagDoc
  | [], _, _, _ => []
  | doc :: rest, uid, did, ts =>
    if doc.user_id == uid then
      { doc with discs := doc.discs.filter (fun e => e.id != did),
                 updated_at := ts } :: rest
    else doc :: pullDisc rest uid did ts

/-! ### The Synchronizer (worker.py) -/

/-- The log lines the worker can emit per message (worker.py lines 49, 59,
71, 82, 85). `processingEvent` is the info line emitted for every message
before dispatch; `errorProcessing` is the error line of the `except`. -/
inductive LogEntry where
  | processingEvent (et : Option String)
  | createdBag (uid : String)
  | addedDisc (uid : String)
  | removedDisc (did uid : String)
  | errorProcessing
deriving Repr, DecidableEq

/-- KafkaConsumer configuration of worker.py line 33: offsets are committed
automatically, independently of apply success. -/
def enable_auto_commit : Bool := true

/-- The store write: `update_one` against MongoDB can raise; `storeOk`
injects that failure. -/
def mongoWrite (storeOk : Bool) (newColl : List BagDoc) :
    Except String (List BagDoc) :=
  match storeOk with
  | true => .ok newColl
  | false => .error "StoreWriteError"

/-- The body of the `try:` block for one message, worker.py lines 44-82:
read `event_type` and `payload`, log the processing line, dispatch on the
type; key access on a missing key raises. Returns the new collection and
the logs of the successful run; an exception propagates to the caller's
`except`. -/
def handleEvent (storeOk : Bool) (coll : List BagDoc) (e : Envelope) :
    Except String (List BagDoc × List LogEntry) :=
  let et := e.event_type
  let logs0 := [LogEntry.processingEvent et]
  if et == some "UserRegistered" then
    match e.payload.bind Payload.user_id, e.timestamp with
    | some uid, some ts =>
      match mongoWrite storeOk (upsertEmptyBag coll uid ts) with
      | .ok c => .ok (c, logs0 ++ [.createdBag uid])
      | .error s => .error s
    | _, _ => .error "KeyError"
  else if et == some "DiscAddedToBag" then
    match e.payload.bind Payload.user_id, e.payload.bind Payload.disc_data,
          e.timestamp with
    | some uid, some d, some ts =>
      match mongoWrite storeOk (pushDisc coll uid d ts) with
      | .ok c => .ok (c, logs0 ++ [.addedDisc uid])
      | .error s => .error s
    | _, _, _ => .error "KeyError"
  else if et == some "DiscRemovedFromBag" then
    match e.payload.bind Payload.user_id, e.payload.bind Payload.disc_id,
          e.timestamp with
    | some uid, some did, some ts =>
      match mongoWrite storeOk (pullDisc coll uid did ts) with
      | .ok c => .ok (c, logs0 ++ [.removedDisc did uid])
      | .error s => .error s
    | _, _, _ => .error "KeyError"
  else
    -- unknown event_type: falls through the if/elif chain, nothing happens
    .ok (coll, logs0)

/-- One iteration of the message loop with the `except` handler (worker.py
lines 43-85): an exception is logged (after the already-emitted processing
line) and the loop continues with the collection unchanged. -/
def processMessageF (storeOk : Bool) (coll : List BagDoc) (e : Envelope) :
    List BagDoc × List LogEntry :=
  match handleEvent storeOk coll e with
  | .ok r => r
  | .error _ =>
    (coll, [LogEntry.processingEvent e.event_type, LogEntry.errorProcessing])

/-- One iteration with the store healthy. -/
def processMessage (coll : List BagDoc) (e : Envelope) :
    List BagDoc × List LogEntry :=
  processMessageF true coll e

/-- The message loop of `start_worker`: the `for message in consumer:` loop
processes every delivered message in order, the `except` swallowing any
per-message failure; `pos` is the consumer's position, which the loop
advances for every message and which `enable_auto_commit = true` commits
regardless of apply outcome. `storeOk n` says whether the store write while
at position `n` succeeds. Returns the final collection and position. -/
def runWorker (storeOk : Nat → Bool) :
    List BagDoc → Nat → List Envelope → List BagDoc × Nat
  | coll, pos, [] => (coll, pos)
  | coll, pos, m :: rest =>
    runWorker storeOk (processMessageF (storeOk pos) coll m).1 (pos + 1) rest

/-! ### The Command API (main.py) and Query API -/

/-- Modelled from the spec: the topic name `config.KAFKA_TOPIC_BAG_UPDATES`.
`backend_config.py` in the repository does not set a Kafka topic attribute
(the code falls back to a `config` module that is not part of the sources),
so only the fact that every publish and the consumer use this one configured
topic is represented; the concrete string is immaterial. -/
def KAFKA_TOPIC_BAG_UPDATES : String := "bag_updates"

/-- A message handed to `KafkaProducer.send`. Every call site in `main.py`
is `producer.send(config.KAFKA_TOPIC_BAG_UPDATES, event)`: the `key`
parameter of `send` is never passed, so it stays at its default `None`. -/
structure PublishedMsg where
  topic : String
  value : Envelope
  key : Option String
deriving Repr, DecidableEq

/-- Response of the `/register` route. -/
structure RegisterResponse where
  message : String
  user_id : String
deriving Repr, DecidableEq

/-- Response of the `/bag/add` and `/bag/remove` routes. -/
structure StatusResponse where
  status : String
  message : String
deriving Repr, DecidableEq

/-- Catalog entry 1 of `main.py` line 88. -/
def dDestroyer : DiscData :=
  { id := "1", name := "Innova Destroyer", manufacturer := "Innova",
    discType := "Distance Driver", speed := 12, glide := 5, turn := -1,
    fade := 3, stability := "Overstable" }

/-- Catalog entry 2 of `main.py` line 89. -/
def dBuzzz : DiscData :=
  { id := "2", name := "Discraft Buzzz", manufacturer := "Discraft",
    discType := "Midrange", speed := 5, glide := 4, turn := -1,
    fade := 1, stability := "Stable" }

/-- Catalog entry 3 of `main.py` line 90. -/
def dAviar : DiscData :=
  { id := "3", name := "Innova Aviar", manufacturer := "Innova",
    discType := "Putter", speed := 3, glide := 3, turn := 0,
    fade := 1, stability := "Stable" }

/-- The mock disc catalog of `main.py` (lines 87-91), serialized shape. -/
def discs_catalog : List DiscData := [dDestroyer, dBuzzz, dAviar]

/-- Route `POST /register` (main.py lines 94-117). `producerUp` is whether the
module-level `producer` is non-`None` (Kafka connection succeeded at
startup); `new_user_id` stands for `str(uuid4())` and `now_iso` for
`datetime.utcnow().isoformat()`. Returns what was published (if anything)
and the HTTP response body. The `return` at line 117 is unconditional. -/
def register_user (producerUp : Bool) (username email password : String)
    (new_user_id now_iso : String) : Option PublishedMsg × RegisterResponse :=
  let event : Envelope :=
    { event_type := some "UserRegistered",
      payload := some { user_id := some new_user_id,
                        username := some username,
                        email := some email,
                        password_hash := some "hashed_secret" },
      timestamp := some now_iso }
  let sent :=
    if producerUp then
      some { topic := KAFKA_TOPIC_BAG_UPDATES, value := event, key := none }
    else none
  (sent, { message := "Registration accepted. Processing in background.",
           user_id := new_user_id })

/-- Route `POST /bag/add` (main.py lines 123-149). A disc id not in the catalog
raises `HTTPException(404, ...)` before any event is built (the `.error`
case); otherwise the event is published when the producer is up, and the
route answers "queued" or "error"/"Kafka Unavailable". -/
def add_disc_to_bag (producerUp : Bool) (user_id disc_id now_iso : String) :
    Except (Nat × String) (Option PublishedMsg × StatusResponse) :=
  match discs_catalog.find? (fun d => d.id == disc_id) with
  | none => .error (404, "Disc not found in catalog")
  | some disc =>
    let event : Envelope :=
      { event_type := some "DiscAddedToBag",
        payload := some { user_id := some user_id, disc_data := some disc },
        timestamp := some now_iso }
    if producerUp then
      .ok (some { topic := KAFKA_TOPIC_BAG_UPDATES, value := event,
                  key := none },
           { status := "queued",
             message := "Request to add " ++ disc.name ++ " received." })
    else
      .ok (none, { status := "error", message := "Kafka Unavailable" })

/-- The message published by `/bag/add`, when any. -/
def addPublished (producerUp : Bool) (user_id disc_id now_iso : String) :
    Option PublishedMsg :=
  match add_disc_to_bag producerUp user_id disc_id now_iso with
  | .ok (m, _) => m
  | .error _ => none

/-- Route `DELETE /bag/remove` (main.py lines 151-168): no catalog validation;
publish when the producer is up, else "error"/"Kafka Unavailable". -/
def remove_disc_from_bag (producerUp : Bool)
    (user_id disc_id now_iso : String) :
    Option PublishedMsg × StatusResponse :=
  let event : Envelope :=
    { event_type := some "DiscRemovedFromBag",
      payload := some { user_id := some user_id, disc_id := some disc_id },
      timestamp := some now_iso }
  if producerUp then
    (some { topic := KAFKA_TOPIC_BAG_UPDATES, value := event, key := none },
     { status := "queued", message := "Request to remove disc received." })
  else
    (none, { status := "error", message := "Kafka Unavailable" })

/-- Route `GET /bag/view/{user_id}` (main.py lines 170-188): `find_one` on the
`bags` collection; absence yields the empty list, otherwise the document's
`discs`. -/
def view_bag (coll : List BagDoc) (user_id : String) : List DiscData :=
  match coll.find? (fun d => d.user_id == user_id) with
  | none => []
  | some doc => doc.discs

/-! ### Envelope constructors, as built by the Command API -/

/-- The `UserRegistered` envelope built at main.py lines 101-111. -/
def mkRegisteredEvent (uid username email ph ts : String) : Envelope :=
  { event_type := some "UserRegistered",
    payload := some { user_id := some uid, username := some username,
                      email := some email, password_hash := some ph },
    timestamp := some ts }

/-- The `DiscAddedToBag` envelope built at main.py lines 135-142. -/
def mkAddEvent (uid : String) (d : DiscData) (ts : String) : Envelope :=
  { event_type := some "DiscAddedToBag",
    payload := some { user_id := some uid, disc_data := some d },
    timestamp := some ts }

/-- The `DiscRemovedFromBag` envelope built at main.py lines 156-163. -/
def mkRemoveEvent (uid did ts : String) : Envelope :=
  { event_type := some "DiscRemovedFromBag",
    payload := some { user_id := some uid, disc_id := some did },
    timestamp := some ts }

/-- Number of documents for a given user in the collection. -/
def countDocs (coll : List BagDoc) (uid : String) : Nat :=
  (coll.filter (fun d => d.user_id == uid)).length

/-- Copy of `coll` with only the `updated_at` of the first document of `uid`
replaced — the frame predicate of the remove-absent claim. -/
def setUpdatedAtFirst : List BagDoc → String → String → List BagDoc
  | [], _, _ => []
  | doc :: rest, uid, ts =>
    if doc.user_id == uid then { doc with updated_at := ts } :: rest
    else doc :: setUpdatedAtFirst rest uid ts

/-! ### Helper lemmas -/

theorem view_bag_nil (uid : String) : view_bag [] uid = [] := rfl

theorem view_bag_cons (doc : BagDoc) (rest : List BagDoc) (uid : String) :
    view_bag (doc :: rest) uid =
      if doc.user_id == uid then doc.discs else view_bag rest uid := by
  simp only [view_bag, List.find?]
  cases h : doc.user_id == uid <;> simp [h]

theorem processMessage_mkRegistered (coll : List BagDoc)
    (uid username email ph ts : String) :
    processMessage coll (mkRegisteredEvent uid username email ph ts) =
      (upsertEmptyBag coll uid ts,
       [LogEntry.processingEvent (some "UserRegistered"),
        LogEntry.createdBag uid]) := rfl

theorem processMessage_mkAdd (coll : List BagDoc) (uid : String)
    (d : DiscData) (ts : String) :
    processMessage coll (mkAddEvent uid d ts) =
      (pushDisc coll uid d ts,
       [LogEntry.processingEvent (some "DiscAddedToBag"),
        LogEntry.addedDisc uid]) := rfl

theorem processMessage_mkRemove (coll : List BagDoc) (uid did ts : String) :
    processMessage coll (mkRemoveEvent uid did ts) =
      (pullDisc coll uid did ts,
       [LogEntry.processingEvent (some "DiscRemovedFromBag"),
        LogEntry.removedDisc did uid]) := rfl

theorem view_pushDisc (coll : List BagDoc) (uid : String) (d : DiscData)
    (ts : String) : view_bag (pushDisc coll uid d ts) uid =
      view_bag coll uid ++ [d] := by
  induction coll with
  | nil => simp [pushDisc, view_bag_cons, view_bag_nil]
  | cons doc rest ih =>
    cases h : doc.user_id == uid <;>
      simp [pushDisc, h, view_bag_cons, ih]

theorem view_pullDisc (coll : List BagDoc) (uid did ts : String) :
    view_bag (pullDisc coll uid did ts) uid =
      (view_bag coll uid).filter (fun e => e.id != did) := by
  induction coll with
  | nil => simp [pullDisc, view_bag_nil]
  | cons doc rest ih =>
    cases h : doc.user_id == uid <;>
      simp [pullDisc, h, view_bag_cons, ih]

theorem upsertEmptyBag_any (coll : List BagDoc) (uid ts : String) :
    (upsertEmptyBag coll uid ts).any (fun d => d.user_id == uid) = true := by
  unfold upsertEmptyBag
  cases h : coll.any (fun d => d.user_id == uid) <;> simp [h]

theorem upsertEmptyBag_idem (coll : List BagDoc) (uid ts ts' : String) :
    upsertEmptyBag (upsertEmptyBag coll uid ts) uid ts' =
      upsertEmptyBag coll uid ts := by
  conv_lhs => rw [upsertEmptyBag]
  rw [upsertEmptyBag_any]
  simp

theorem countDocs_nil (uid : String) : countDocs [] uid = 0 := rfl

theorem countDocs_cons (doc : BagDoc) (rest : List BagDoc) (uid : String) :
    countDocs (doc :: rest) uid =
      (if doc.user_id == uid then 1 else 0) + countDocs rest uid := by
  simp only [countDocs, List.filter]
  cases h : doc.user_id == uid <;> simp [h, Nat.add_comm]

theorem countDocs_append (c₁ c₂ : List BagDoc) (uid : String) :
    countDocs (c₁ ++ c₂) uid = countDocs c₁ uid + countDocs c₂ uid := by
  simp [countDocs, List.filter_append]

theorem countDocs_pos_of_any (coll : List BagDoc) (uid : String)
    (h : coll.any (fun d => d.user_id == uid) = true) :
    0 < countDocs coll uid := by
  rw [List.any_eq_true] at h
  obtain ⟨d, hd, hp⟩ := h
  have : d ∈ coll.filter (fun d => d.user_id == uid) :=
    List.mem_filter.mpr ⟨hd, hp⟩
  exact List.length_pos.mpr (fun hnil => by simp [hnil] at this)

theorem countDocs_eq_zero_of_not_any (coll : List BagDoc) (uid : String)
    (h : coll.any (fun d => d.user_id == uid) = false) :
    countDocs coll uid = 0 := by
  simp only [countDocs, List.length_eq_zero]
  rw [List.filter_eq_nil_iff]
  intro a ha
  rw [List.any_eq_false] at h
  simpa using h a ha

theorem countDocs_upsertEmptyBag (coll : List BagDoc) (uid ts : String) :
    countDocs (upsertEmptyBag coll uid ts) uid = max 1 (countDocs coll uid) := by
  unfold upsertEmptyBag
  cases h : coll.any (fun d => d.user_id == uid) with
  | false =>
    have h0 := countDocs_eq_zero_of_not_any coll uid h
    simp [countDocs_append, h0, countDocs_cons, countDocs_nil]
  | true =>
    have hpos := countDocs_pos_of_any coll uid h
    simp
    omega

theorem countDocs_pushDisc (coll : List BagDoc) (uid : String) (d : DiscData)
    (ts : String) :
    countDocs (pushDisc coll uid d ts) uid = max 1 (countDocs coll uid) := by
  induction coll with
  | nil => simp [pushDisc, countDocs_cons, countDocs_nil]
  | cons doc rest ih =>
    cases h : doc.user_id == uid with
    | false => simp [pushDisc, h, countDocs_cons, ih]
    | true => simp [pushDisc, h, countDocs_cons]

theorem pullDisc_absent (coll : List BagDoc) (uid did ts : String)
    (h : ∀ e ∈ view_bag coll uid, e.id ≠ did) :
    pullDisc coll uid did ts = setUpdatedAtFirst coll uid ts := by
  induction coll with
  | nil => rfl
  | cons doc rest ih =>
    cases hm : doc.user_id == uid with
    | true =>
      have hd : ∀ e ∈ doc.discs, e.id ≠ did := by
        intro e he
        exact h e (by rw [view_bag_cons, hm]; simpa using he)
      have hf : doc.discs.filter (fun e => e.id != did) = doc.discs := by
        rw [List.filter_eq_self]
        intro a ha
        simpa using hd a ha
      simp [pullDisc, setUpdatedAtFirst, hm, hf]
    | false =>
      have h' : ∀ e ∈ view_bag rest uid, e.id ≠ did := by
        intro e he
        exact h e (by rw [view_bag_cons, hm]; simpa using he)
      simp [pullDisc, setUpdatedAtFirst, hm, ih h']

theorem processMessageF_false_fst (coll : List BagDoc) (e : Envelope) :
    (processMessageF false coll e).1 = coll := by
  obtain ⟨et, p, ts⟩ := e
  simp only [processMessageF]
  split
  case h_1 r heq =>
    simp only [handleEvent, mongoWrite] at heq
    split at heq
    · split at heq <;> simp_all
    · split at heq
      · split at heq <;> simp_all
      · split at heq
        · split at heq <;> simp_all
        · injection heq with h
          simp [← h]
  case h_2 => rfl

theorem runWorker_pos (storeOk : Nat → Bool) (coll : List BagDoc) (pos : Nat)
    (msgs : List Envelope) :
    (runWorker storeOk coll pos msgs).2 = pos + msgs.length := by
  induction msgs generalizing coll pos with
  | nil => simp [runWorker]
  | cons m rest ih => simp [runWorker, ih]; omega

/-- Occurrences of the disc with id `did` in the bag of `uid`, as the Query
API reads it. -/
def userDiscCount (coll : List BagDoc) (uid did : String) : Nat :=
  ((view_bag coll uid).filter (fun e => e.id == did)).length

/-! ### Claims -/

/-- C1, counterexample: redelivering the very `DiscAddedToBag` event for
disc "2" that was already applied to the (initially empty) bag of "u1"
leaves the bag containing disc "2" twice — not exactly once, as the claim
requires. -/
theorem C1_counterexample_redelivery_double_counts :
    userDiscCount
      ((processMessage ((processMessage [] (mkAddEvent "u1" dBuzzz "t1")).1)
        (mkAddEvent "u1" dBuzzz "t1")).1) "u1" "2" = 2 ∧
    ¬ userDiscCount
      ((processMessage ((processMessage [] (mkAddEvent "u1" dBuzzz "t1")).1)
        (mkAddEvent "u1" dBuzzz "t1")).1) "u1" "2" = 1 := by
  constructor
  · decide
  · decide

/-- C1, amended: applying a `DiscAddedToBag` event always appends one more
copy of the disc to the user's bag — the `$push` at worker.py line 68 is
unconditional, there is no dedup/idempotency key, so a redelivered add
increments the count instead of leaving it at one. -/
theorem C1_redelivered_add_appends_duplicate (coll : List BagDoc)
    (uid : String) (d : DiscData) (ts : String) :
    userDiscCount ((processMessage coll (mkAddEvent uid d ts)).1) uid d.id =
      userDiscCount coll uid d.id + 1 := by
  simp [userDiscCount, processMessage_mkAdd, view_pushDisc,
    List.filter_append]

/-- C2, counterexample: the store write fails while the worker is at
position 0 (the first `DiscAddedToBag` is lost, only the error is logged),
yet the loop advances and applies the message at position 1, finishing at
committed position 2 — the worker advanced past a failed event instead of
leaving it uncommitted for redelivery. -/
theorem C2_counterexample_advances_past_failed_write :
    runWorker (fun n => n != 0) [] 0
        [mkAddEvent "u1" dBuzzz "t1", mkAddEvent "u1" dBuzzz "t2"] =
      ([{ user_id := "u1", discs := [dBuzzz], updated_at := "t2" }], 2) ∧
    processMessageF false [] (mkAddEvent "u1" dBuzzz "t1") =
      ([], [LogEntry.processingEvent (some "DiscAddedToBag"),
            LogEntry.errorProcessing]) := by
  constructor
  · decide
  · decide

/-- C2, amended: the consumer is configured with `enable_auto_commit=True`
and the loop's `except` swallows store-write failures, so the position
advances by one for every delivered message regardless of apply outcome —
a failed store write leaves the read model unchanged and is only logged,
and the worker still moves past the failed event rather than holding its
position for redelivery. -/
theorem C2_auto_commit_advances_past_failures (storeOk : Nat → Bool)
    (coll coll' : List BagDoc) (pos : Nat) (msgs : List Envelope)
    (e : Envelope) :
    enable_auto_commit = true ∧
    (runWorker storeOk coll pos msgs).2 = pos + msgs.length ∧
    (processMessageF false coll' e).1 = coll' :=
  ⟨rfl, runWorker_pos storeOk coll pos msgs, processMessageF_false_fst coll' e⟩

/-- C3, counterexample: with the broker unavailable (`producer is None`),
`POST /register` publishes nothing and still answers the unconditional
"Registration accepted. Processing in background." success body (main.py
line 117) — it fabricates an accepted response for an intent that was never
published, instead of reporting "write unavailable". -/
theorem C3_counterexample_register_succeeds_without_broker :
    register_user false "alice" "alice@example.com" "pw" "uid-1" "t1" =
      (none, { message := "Registration accepted. Processing in background.",
               user_id := "uid-1" }) := rfl

/-- C3, amended: with the broker unavailable, `POST /bag/add` and
`DELETE /bag/remove` fail closed — nothing is published and the response is
status "error" / "Kafka Unavailable" (a 404 still precedes the broker check
for an unknown disc) — but `POST /register` publishes nothing and still
returns the "Registration accepted" success response. -/
theorem C3_fail_closed_except_register
    (username email password uid ts user_id disc_id now : String) :
    (add_disc_to_bag false user_id disc_id now =
      match discs_catalog.find? (fun d => d.id == disc_id) with
      | some _ => .ok (none, { status := "error",
                               message := "Kafka Unavailable" })
      | none => .error (404, "Disc not found in catalog")) ∧
    remove_disc_from_bag false user_id disc_id now =
      (none, { status := "error", message := "Kafka Unavailable" }) ∧
    (register_user false username email password uid ts).1 = none ∧
    (register_user false username email password uid ts).2 =
      { message := "Registration accepted. Processing in background.",
        user_id := uid } := by
  refine ⟨?_, rfl, rfl, rfl⟩
  unfold add_disc_to_bag
  cases h : discs_catalog.find? (fun d => d.id == disc_id) <;> simp [h]

/-- C4, counterexample: the message published by `POST /bag/add` for
user "u1" and catalog disc "2" carries partition key `None` — the call at
main.py line 146 is `producer.send(topic, event)` with no key argument —
while `payload.user_id` is "u1": the publish does not use `payload.user_id`
as the partition key. -/
theorem C4_counterexample_publish_has_no_key :
    (addPublished true "u1" "2" "t1").isSome = true ∧
    (addPublished true "u1" "2" "t1").map PublishedMsg.key = some none ∧
    ((addPublished true "u1" "2" "t1").bind
      (fun m => m.value.payload.bind Payload.user_id)) = some "u1" ∧
    (addPublished true "u1" "2" "t1").map
      (fun m => m.key == some "u1") = some false := by
  refine ⟨rfl, rfl, rfl, rfl⟩

/-- C4, amended: every envelope published by the Command API (register,
add-disc, remove-disc) is sent with no partition key at all (`key = None`),
so the producer does not key the partition assignment by `payload.user_id`. -/
theorem C4_no_partition_key
    (username email password uid ts user_id disc_id now : String) :
    ((register_user true username email password uid ts).1).map
        PublishedMsg.key = some none ∧
    Option.all (fun m => m.key == none)
        (addPublished true user_id disc_id now) = true ∧
    ((remove_disc_from_bag true user_id disc_id now).1).map
        PublishedMsg.key = some none := by
  refine ⟨rfl, ?_, rfl⟩
  unfold addPublished add_disc_to_bag
  cases h : discs_catalog.find? (fun d => d.id == disc_id) <;> simp [h]

/-- C5: a consumed message whose `event_type` is none of UserRegistered,
DiscAddedToBag, DiscRemovedFromBag falls through the worker's dispatch:
the read model is left unchanged (skip), the loop does not crash, and the
message is not dropped without a log entry — the info line
"Processing event: {event_type}" naming the unknown type is emitted
(worker.py line 49); it is the only log entry for such a message. -/
theorem C5_unknown_event_type_logged_and_skipped (coll : List BagDoc)
    (e : Envelope)
    (h1 : e.event_type ≠ some "UserRegistered")
    (h2 : e.event_type ≠ some "DiscAddedToBag")
    (h3 : e.event_type ≠ some "DiscRemovedFromBag") :
    processMessage coll e = (coll, [LogEntry.processingEvent e.event_type]) := by
  have h1' : (e.event_type == some "UserRegistered") = false :=
    beq_eq_false_iff_ne.mpr h1
  have h2' : (e.event_type == some "DiscAddedToBag") = false :=
    beq_eq_false_iff_ne.mpr h2
  have h3' : (e.event_type == some "DiscRemovedFromBag") = false :=
    beq_eq_false_iff_ne.mpr h3
  simp [processMessage, processMessageF, handleEvent, h1', h2', h3']

/-- C5, witness: a concrete "Bogus" event is skipped with the single
processing-line log entry. -/
theorem C5_witness :
    processMessage []
        { event_type := some "Bogus", payload := some {},
          timestamp := some "t1" } =
      ([], [LogEntry.processingEvent (some "Bogus")]) :=
  C5_unknown_event_type_logged_and_skipped []
    { event_type := some "Bogus", payload := some {}, timestamp := some "t1" }
    (by decide) (by decide) (by decide)

/-- C6: applying the same `UserRegistered` event twice is idempotent on the
`bags` collection: the second apply changes nothing; the user ends up with
exactly one document when they had at most one before (`max 1`); and the
first apply either leaves the collection untouched (the user's document
already existed — nothing is overwritten) or appends the single fresh empty
bag document. -/
theorem C6_user_registered_idempotent (coll : List BagDoc)
    (uid username email ph ts : String) :
    (processMessage
        ((processMessage coll (mkRegisteredEvent uid username email ph ts)).1)
        (mkRegisteredEvent uid username email ph ts)).1 =
      (processMessage coll (mkRegisteredEvent uid username email ph ts)).1 ∧
    countDocs ((processMessage coll
        (mkRegisteredEvent uid username email ph ts)).1) uid =
      max 1 (countDocs coll uid) ∧
    ((processMessage coll (mkRegisteredEvent uid username email ph ts)).1 =
        coll ∨
     (processMessage coll (mkRegisteredEvent uid username email ph ts)).1 =
        coll ++ [{ user_id := uid, discs := [], updated_at := ts }]) := by
  simp only [processMessage_mkRegistered]
  refine ⟨upsertEmptyBag_idem coll uid ts ts,
          countDocs_upsertEmptyBag coll uid ts, ?_⟩
  unfold upsertEmptyBag
  cases h : coll.any (fun d => d.user_id == uid) <;> simp

/-- C7: starting from an empty bag for `uid` (no document, or a first
document with an empty disc array), applying DiscAddedToBag(A), then
DiscRemovedFromBag(A.id), then DiscAddedToBag(B) through the worker yields
a bag whose disc sequence is exactly [B]. -/
theorem C7_add_remove_add_yields_exactly_B (coll : List BagDoc)
    (uid : String) (A B : DiscData) (ts1 ts2 ts3 : String)
    (h : view_bag coll uid = []) :
    view_bag ((processMessage
        ((processMessage ((processMessage coll (mkAddEvent uid A ts1)).1)
          (mkRemoveEvent uid A.id ts2)).1)
        (mkAddEvent uid B ts3)).1) uid = [B] := by
  simp only [processMessage_mkAdd, processMessage_mkRemove]
  rw [view_pushDisc, view_pullDisc, view_pushDisc, h]
  simp

/-- C7, witness: for user "u1" starting with no document at all, adding the
Destroyer, removing it, then adding the Buzzz leaves exactly the Buzzz. -/
theorem C7_witness :
    view_bag ((processMessage
        ((processMessage ((processMessage [] (mkAddEvent "u1" dDestroyer "t1")).1)
          (mkRemoveEvent "u1" dDestroyer.id "t2")).1)
        (mkAddEvent "u1" dBuzzz "t3")).1) "u1" = [dBuzzz] :=
  C7_add_remove_add_yields_exactly_B [] "u1" dDestroyer dBuzzz
    "t1" "t2" "t3" (by decide)

/-- C8: the two document-creation paths converge. Applying `UserRegistered`
or `DiscAddedToBag` never produces a second document for a user who already
has one (the count goes to `max 1` of the previous count on both paths),
and from an absent document both paths create the single document
`{user_id, discs, updated_at}` — the same shape (`BagDoc` mirrors the field
sets of the `$setOnInsert` spec and of the `$push`/`$set` upsert insert,
which coincide), differing only in `discs` being empty versus the one
added snapshot. -/
theorem C8_creation_paths_converge (coll : List BagDoc)
    (uid username email ph : String) (d : DiscData) (ts ts' : String) :
    countDocs ((processMessage coll
        (mkRegisteredEvent uid username email ph ts)).1) uid =
      max 1 (countDocs coll uid) ∧
    countDocs ((processMessage coll (mkAddEvent uid d ts')).1) uid =
      max 1 (countDocs coll uid) ∧
    (processMessage [] (mkRegisteredEvent uid username email ph ts)).1 =
      [{ user_id := uid, discs := [], updated_at := ts }] ∧
    (processMessage [] (mkAddEvent uid d ts)).1 =
      [{ user_id := uid, discs := [d], updated_at := ts }] := by
  refine ⟨?_, ?_, rfl, rfl⟩
  · simp [processMessage_mkRegistered, countDocs_upsertEmptyBag]
  · simp [processMessage_mkAdd, countDocs_pushDisc]

/-- C9: applying a `DiscRemovedFromBag` for a disc id that matches no entry
of the user's bag changes nothing but `updated_at` of that (first) document
— every other document and every other field is untouched — and the worker
treats it as a success, logging the removal line, not an error. -/
theorem C9_remove_absent_only_updates_timestamp (coll : List BagDoc)
    (uid did ts : String) (h : ∀ e ∈ view_bag coll uid, e.id ≠ did) :
    processMessage coll (mkRemoveEvent uid did ts) =
      (setUpdatedAtFirst coll uid ts,
       [LogEntry.processingEvent (some "DiscRemovedFromBag"),
        LogEntry.removedDisc did uid]) := by
  rw [processMessage_mkRemove, pullDisc_absent coll uid did ts h]

/-- C9, witness: removing the absent disc id "9" from a bag holding only
the Buzzz leaves the disc list intact and bumps only `updated_at`. -/
theorem C9_witness :
    processMessage [{ user_id := "u1", discs := [dBuzzz], updated_at := "t0" }]
        (mkRemoveEvent "u1" "9" "t1") =
      (setUpdatedAtFirst
        [{ user_id := "u1", discs := [dBuzzz], updated_at := "t0" }] "u1" "t1",
       [LogEntry.processingEvent (some "DiscRemovedFromBag"),
        LogEntry.removedDisc "9" "u1"]) :=
  C9_remove_absent_only_updates_timestamp
    [{ user_id := "u1", discs := [dBuzzz], updated_at := "t0" }]
    "u1" "9" "t1" (by decide)

/-- C10: the `/register` route is insensitive to the password argument —
two calls differing only in the password produce the identical published
envelope and response (given the same generated user id and timestamp) —
and the published payload's `password_hash` is the constant string
"hashed_secret" (main.py line 108); the plaintext password reaches no part
of the event. -/
theorem C10_register_password_never_published (producerUp : Bool)
    (username email password password' new_user_id now : String) :
    register_user producerUp username email password new_user_id now =
      register_user producerUp username email password' new_user_id now ∧
    ((register_user true username email password new_user_id now).1.bind
        (fun m => m.value.payload)).bind Payload.password_hash =
      some "hashed_secret" :=
  ⟨rfl, rfl⟩

end Dewey
